import Mathlib

/-!
Formal model of the accessibility document converter (`dys.py`).

The program tokenizes extracted document text into maximal whitespace /
non-whitespace runs, splits each word into a bold leading half of its
alphanumeric core plus a remaining part, and renders the result both as an
HTML preview and as a paginated PDF.  The definitions below are shallow
embeddings of the corresponding Python functions, with strings modelled as
`List Char` (markup strings as well), and the external libraries (python-docx,
PyMuPDF, reportlab's layout engine) modelled by explicit parameters or by
their documented geometry defaults.
-/

/-- Word character in the sense of the regex `\w`: alphanumeric or underscore
(ASCII range, which covers every input considered here). -/
def wordChar (c : Char) : Bool :=
  c.isAlphanum || c = '_'

/-- Non-word character, the class `\W` used by `process_word_app`'s strip. -/
def nonWordChar (c : Char) : Bool :=
  !(wordChar c)

/-- Whitespace in the sense of `\s` / `str.strip()`. -/
def isSpaceChar (c : Char) : Bool :=
  c.isWhitespace

/-- Remove the maximal leading run and the maximal trailing run of characters
satisfying `p`.  `trimEnds nonWordChar` models `re.sub(r'^\W+|\W+$', '', w)`;
`trimEnds isSpaceChar` models Python's `str.strip()`. -/
def trimEnds (p : Char → Bool) (l : List Char) : List Char :=
  ((l.dropWhile p).reverse.dropWhile p).reverse

/-- The `clean_word` of `process_word_app`: the word with leading and trailing
non-word characters stripped (its alphanumeric core). -/
def trimNonWord (w : List Char) : List Char :=
  trimEnds nonWordChar w

/-- Embedding of `process_word_app` (dys.py lines 47-54):
`clean_word = re.sub(r'^\W+|\W+$', '', word)`; if empty return `(word, '')`;
else `split = (len(clean_word) + 1) // 2`, `bold = clean_word[:split]`,
`normal = clean_word[split:] + word[len(clean_word):]`. -/
def process_word_app (word : List Char) : List Char × List Char :=
  let clean_word := trimNonWord word
  if clean_word = [] then (word, [])
  else
    let split := (clean_word.length + 1) / 2
    (clean_word.take split, clean_word.drop split ++ word.drop clean_word.length)

/-- One step of run-formation: prepend character `c` to an already tokenized
tail, merging `c` into the first token when it is of the same
whitespace/non-whitespace class, starting a new token otherwise. -/
def tokAppend (c : Char) (ts : List (List Char)) : List (List Char) :=
  match ts with
  | [] => [[c]]
  | [] :: rest => [c] :: rest
  | (d :: tk) :: rest =>
    if isSpaceChar c = isSpaceChar d then (c :: d :: tk) :: rest
    else [c] :: (d :: tk) :: rest

/-- Embedding of `re.findall(r'\S+|\s+', text)` (dys.py lines 58 and 93):
the decomposition of the text into maximal runs of non-whitespace and maximal
runs of whitespace, in order. -/
def tokenize : List Char → List (List Char)
  | [] => []
  | c :: rest => tokAppend c (tokenize rest)

/-- Embedding of `process_text_for_preview` (dys.py lines 56-64): whitespace
runs (`word.strip() == ''`) become `("", word)` pairs, other tokens are split
by `process_word_app`. -/
def process_text_for_preview (text : List Char) : List (List Char × List Char) :=
  (tokenize text).map fun w =>
    if trimEnds isSpaceChar w = [] then ([], w) else process_word_app w

/-- The settings dictionary of the app, restricted to the fields the renderers
read.  Each field holds the textual form that the Python f-strings interpolate
into markup (e.g. `text_size = "12"`, `line_spacing = "2.0"`). -/
structure Settings where
  current_font : String
  text_size : String
  line_spacing : String
  char_spacing : String
  text_color : String
  bg_color : String
deriving DecidableEq

/-- The initial session-state settings of dys.py (lines 15-23), in the textual
form the f-strings produce. -/
def defaultSettings : Settings :=
  ⟨"Arial", "12", "2.0", "1", "#000000", "#FFFFFF"⟩

/-- The opening span tag built by the preview loop (dys.py lines 182-187),
with the settings values interpolated. -/
def spanOpen (s : Settings) : List Char :=
  "<span style=\"font-family: ".toList ++ s.current_font.toList ++
  "; font-size: ".toList ++ s.text_size.toList ++
  "pt; line-height: ".toList ++ s.line_spacing.toList ++
  "; letter-spacing: ".toList ++ s.char_spacing.toList ++
  "pt;color: ".toList ++ s.text_color.toList ++ ";\">".toList

/-- The markup the preview loop emits for one `(bold, normal)` pair
(dys.py lines 181-189): the styled span wrapping `<b>{bold}</b>{normal}`. -/
def previewSpan (s : Settings) (pr : List Char × List Char) : List Char :=
  spanOpen s ++ "<b>".toList ++ pr.1 ++ "</b>".toList ++ pr.2 ++ "</span>".toList

/-- The full preview markup (dys.py lines 179-194): the background-styled div
wrapping the concatenated spans of all processed tokens. -/
def renderPreview (s : Settings) (text : List Char) : List Char :=
  "<div style=\"background:".toList ++ s.bg_color.toList ++
  ";padding:20px;border-radius:10px;\">".toList ++
  ((process_text_for_preview text).map (previewSpan s)).flatten ++
  "</div>".toList

/-- Embedding of `text.split("\n\n")` (dys.py line 89): Python `str.split`
with a literal separator, scanning left to right over non-overlapping
occurrences and preserving empty pieces. -/
def splitOnDNL : List Char → List (List Char)
  | [] => [[]]
  | '\n' :: '\n' :: rest => [] :: splitOnDNL rest
  | c :: rest =>
    match splitOnDNL rest with
    | [] => [[c]]
    | p :: ps => (c :: p) :: ps

/-- A flowable of the PDF story: a paragraph with its inline markup, or the
fixed `Spacer(1, 6)` appended after each paragraph. -/
inductive Flowable where
  | par : List Char → Flowable
  | spacer : Nat → Nat → Flowable
deriving DecidableEq

/-- The inline markup the PDF path emits for one word token (dys.py line 99):
`<font name="{font}-Bold">{bold}</font>{normal}`. -/
def pdfWordMarkup (s : Settings) (w : List Char) : List Char :=
  "<font name=\"".toList ++ s.current_font.toList ++ "-Bold\">".toList ++
  (process_word_app w).1 ++ "</font>".toList ++ (process_word_app w).2

/-- The paragraph markup of the PDF path (dys.py lines 92-101): whitespace
runs pass through verbatim, word tokens are replaced by their bold-font
markup, and the pieces are joined. -/
def pdfParagraphMarkup (s : Settings) (para : List Char) : List Char :=
  ((tokenize para).map fun w =>
    if trimEnds isSpaceChar w = [] then w else pdfWordMarkup s w).flatten

/-- The PDF story built by `create_pdf_document` (dys.py lines 88-103): for
every paragraph of the double-newline split — empty paragraphs included — one
`Paragraph` flowable followed by a `Spacer(1, 6)`. -/
def create_pdf_content (s : Settings) (text : List Char) : List Flowable :=
  (splitOnDNL text).flatMap fun p =>
    [Flowable.par (pdfParagraphMarkup s p), Flowable.spacer 1 6]

/-- An axis-aligned rectangle in PDF points, as passed to `canvas.rect`. -/
structure Rect where
  x : Nat
  y : Nat
  w : Nat
  h : Nat
deriving DecidableEq

/-- Membership of a page point in a rectangle. -/
def rectCovers (r : Rect) (px py : Nat) : Prop :=
  r.x ≤ px ∧ px ≤ r.x + r.w ∧ r.y ≤ py ∧ py ≤ r.y + r.h

instance (r : Rect) (px py : Nat) : Decidable (rectCovers r px py) :=
  inferInstanceAs
    (Decidable (r.x ≤ px ∧ px ≤ r.x + r.w ∧ r.y ≤ py ∧ py ≤ r.y + r.h))

/-- Page and margin geometry of a reportlab `BaseDocTemplate`. -/
structure DocGeom where
  pageW : Nat
  pageH : Nat
  leftMargin : Nat
  rightMargin : Nat
  topMargin : Nat
  bottomMargin : Nat
deriving DecidableEq

/-- Modelled from reportlab: `doc.width`, the frame width computed by
`BaseDocTemplate._calc` as `pagesize[0] - leftMargin - rightMargin`. -/
def DocGeom.frameWidth (d : DocGeom) : Nat :=
  d.pageW - d.leftMargin - d.rightMargin

/-- Modelled from reportlab: `doc.height`, the frame height computed by
`BaseDocTemplate._calc` as `pagesize[1] - topMargin - bottomMargin`. -/
def DocGeom.frameHeight (d : DocGeom) : Nat :=
  d.pageH - d.topMargin - d.bottomMargin

/-- The geometry of `SimpleDocTemplate(buffer, pagesize=letter)` (dys.py
lines 70-73): letter is 612 x 792 points and every margin defaults to one
inch (72 points) in reportlab. -/
def simpleDocTemplate_letter : DocGeom :=
  ⟨612, 792, 72, 72, 72, 72⟩

/-- The rectangle filled by `add_background` (dys.py lines 105-109):
`canvas.rect(0, 0, doc.width, doc.height, fill=1)`. -/
def add_background_rect (d : DocGeom) : Rect :=
  ⟨0, 0, d.frameWidth, d.frameHeight⟩

/-- The declared MIME type of a DOCX upload (dys.py line 125). -/
def DOCX_MIME : String :=
  "application/vnd.openxmlformats-officedocument.wordprocessingml.document"

/-- The declared MIME type of a PDF upload (dys.py line 128). -/
def PDF_MIME : String := "application/pdf"

/-- PDF output bytes, abstracted as a byte list. -/
abbrev PdfBytes := List Nat

/-- Embedding of `read_document_file` (dys.py lines 119-135).  The external
extraction libraries (python-docx, PyMuPDF) are modelled by the `extract`
parameter: `Except.ok` is the text they produce, `Except.error` an exception
they raise, which the function converts into an "Error reading file" message.
Returns the `(text, error)` pair of the source. -/
def read_document_file (fileType : String) (extract : Except String (List Char)) :
    Option (List Char) × Option String :=
  if fileType = DOCX_MIME then
    match extract with
    | Except.ok t => (some t, none)
    | Except.error e => (none, some ("Error reading file: " ++ e))
  else if fileType = PDF_MIME then
    match extract with
    | Except.ok t => (some t, none)
    | Except.error e => (none, some ("Error reading file: " ++ e))
  else (none, some "Unsupported file type. Please upload DOCX or PDF.")

/-- The session-visible outcome of handling an upload: the stored PDF bytes,
the stored error message, and the preview markup emitted to the page (none
when the preview step was never reached). -/
structure UploadResult where
  pdf_bytes : Option PdfBytes
  error_message : Option String
  emitted_preview : Option (List Char)
deriving DecidableEq

/-- Embedding of the upload-handling block (dys.py lines 167-201).  The
reportlab build step is modelled by the `build` parameter (`Except.error` is
an exception during `doc.build`, which `create_pdf_document` re-raises as
"Failed to generate PDF: ...").  `_prev` is the previously stored
`pdf_bytes`; every path overwrites or clears it, so the result never depends
on it.  The `(none, none)` case of the pair cannot occur (see
`read_document_file_exclusive`). -/
def handle_upload (s : Settings) (fileType : String)
    (extract : Except String (List Char))
    (build : List Flowable → Except String PdfBytes)
    (_prev : Option PdfBytes) : UploadResult :=
  match read_document_file fileType extract with
  | (_, some e) => ⟨none, some e, none⟩
  | (some t, none) =>
    if trimEnds isSpaceChar t = [] then
      ⟨none, some "The document contains no text.", none⟩
    else
      match build (create_pdf_content s t) with
      | Except.ok b => ⟨some b, none, some (renderPreview s t)⟩
      | Except.error e =>
        ⟨none, some ("Failed to generate PDF: " ++ e), some (renderPreview s t)⟩
  | (none, none) => ⟨none, some "", none⟩

/-- A concrete build function standing for a reportlab engine that always
fails; used only to instantiate witnesses. -/
def noBuild : List Flowable → Except String PdfBytes :=
  fun _ => Except.error "unavailable"

-- Sanity example mirroring the behaviour of the Python tokenizer.
example : tokenize "ab  cd".toList =
    ["ab".toList, "  ".toList, "cd".toList] := by decide

example : process_word_app "world!".toList =
    ("wor".toList, "ld!".toList) := by decide

/-- Helper: prepending a character through `tokAppend` prepends it to the
flattened text. -/
lemma tokAppend_flatten (c : Char) (ts : List (List Char)) :
    (tokAppend c ts).flatten = c :: ts.flatten := by
  match ts with
  | [] => rfl
  | [] :: rest => simp [tokAppend]
  | (d :: tk) :: rest =>
    by_cases h : isSpaceChar c = isSpaceChar d <;> simp [tokAppend, h]

/-- C2: the ordered token sequence produced by `tokenize`, concatenated in
order, reconstructs the input text exactly: no characters are added or
dropped. -/
theorem tokenize_reconstructs (t : List Char) : (tokenize t).flatten = t := by
  induction t with
  | nil => rfl
  | cons c rest ih => simp [tokenize, tokAppend_flatten, ih]

/-- C3: for a word with non-empty core, the bold part is exactly the first
`ceil(len(core)/2)` characters of the core — `(len(core)+1)/2` in integer
arithmetic — hence a prefix of the core of that length. -/
theorem process_word_app_bold_half_core (word : List Char)
    (h : trimNonWord word ≠ []) :
    (process_word_app word).1 =
      (trimNonWord word).take (((trimNonWord word).length + 1) / 2) ∧
    (process_word_app word).1.length = ((trimNonWord word).length + 1) / 2 := by
  have h1 : 1 ≤ (trimNonWord word).length := by
    cases hw : trimNonWord word with
    | nil => exact absurd hw h
    | cons a l => simp
  simp only [process_word_app]
  rw [if_neg h]
  refine ⟨rfl, ?_⟩
  rw [List.length_take]
  omega

/-- Witness for C3 at the concrete word "hi!". -/
theorem process_word_app_bold_half_core_witness :
    (process_word_app ['h', 'i', '!']).1 =
      (trimNonWord ['h', 'i', '!']).take
        (((trimNonWord ['h', 'i', '!']).length + 1) / 2) :=
  (process_word_app_bold_half_core ['h', 'i', '!'] (by decide)).1

/-- C4: a word whose core is empty (entirely non-word characters) is returned
whole as the bold part, with an empty normal part. -/
theorem process_word_app_empty_core (word : List Char)
    (h : trimNonWord word = []) :
    process_word_app word = (word, []) := by
  simp [process_word_app, h]

/-- Witness for C4 at the concrete word "---". -/
theorem process_word_app_empty_core_witness :
    process_word_app ['-', '-', '-'] = (['-', '-', '-'], []) :=
  process_word_app_empty_core ['-', '-', '-'] (by decide)

/-- C1: at the word "(abc)" the code strips the core "abc", takes bold "ab",
but computes the normal part as `clean_word[split:] + word[len(clean_word):]`
= "c" ++ "c)" = "cc)", duplicating the core character 'c'; the claimed value
— remaining core plus exactly the trailing stripped characters — would be
"c)" = ['c'] ++ [')'], which differs. -/
theorem process_word_app_leading_punct_bug :
    trimNonWord ['(', 'a', 'b', 'c', ')'] = ['a', 'b', 'c'] ∧
    process_word_app ['(', 'a', 'b', 'c', ')'] = (['a', 'b'], ['c', 'c', ')']) ∧
    (['c', 'c', ')'] : List Char) ≠ ['c'] ++ [')'] := by
  decide

/-- C10: when the word begins with a word character (nothing is stripped on
the left) and the core is non-empty, the bold and normal parts concatenate
back to the original word. -/
theorem process_word_app_roundtrip_no_leading (word : List Char)
    (hlead : word.dropWhile nonWordChar = word)
    (hcore : trimNonWord word ≠ []) :
    (process_word_app word).1 ++ (process_word_app word).2 = word := by
  obtain ⟨tl, htl⟩ : ∃ tl, (word.reverse.takeWhile nonWordChar).reverse = tl :=
    ⟨_, rfl⟩
  have hword : trimNonWord word ++ tl = word := by
    have hsplit : word.reverse.takeWhile nonWordChar ++
        word.reverse.dropWhile nonWordChar = word.reverse :=
      List.takeWhile_append_dropWhile nonWordChar word.reverse
    have hrev := congrArg List.reverse hsplit
    rw [List.reverse_append, List.reverse_reverse] at hrev
    rw [trimNonWord, trimEnds, hlead, htl] at *
    exact hrev
  obtain ⟨cw, hcw⟩ : ∃ cw, trimNonWord word = cw := ⟨_, rfl⟩
  rw [hcw] at hword hcore
  simp only [process_word_app]
  rw [hcw, if_neg hcore]
  conv_lhs => rw [← hword]
  rw [List.drop_left, ← List.append_assoc, List.take_append_drop, hword]

/-- Witness for C10 at the concrete word "ab,". -/
theorem process_word_app_roundtrip_no_leading_witness :
    (process_word_app ['a', 'b', ',']).1 ++ (process_word_app ['a', 'b', ',']).2 =
      ['a', 'b', ','] :=
  process_word_app_roundtrip_no_leading ['a', 'b', ','] (by decide) (by decide)

/-- Helper: the two-sided trim is empty exactly when every character of the
list satisfies the trimmed predicate. -/
lemma trimEnds_eq_nil_iff (p : Char → Bool) (l : List Char) :
    trimEnds p l = [] ↔ l.all p = true := by
  unfold trimEnds
  rw [List.reverse_eq_nil_iff, List.dropWhile_eq_nil_iff, List.all_eq_true]
  constructor
  · intro h x hx
    have hx' : x ∈ l.takeWhile p ++ l.dropWhile p := by
      rw [List.takeWhile_append_dropWhile]
      exact hx
    rcases List.mem_append.mp hx' with h1 | h2
    · exact List.mem_takeWhile_imp h1
    · exact h x (List.mem_reverse.mpr h2)
  · intro h x hx
    exact h x (((List.dropWhile_sublist p).mem (List.mem_reverse.mp hx)))

/-- Helper: in `read_document_file` exactly one of the text and error slots is
filled, so the `(none, none)` case of `handle_upload` is unreachable. -/
lemma read_document_file_exclusive (ft : String)
    (extract : Except String (List Char)) :
    (read_document_file ft extract).1.isSome =
      !(read_document_file ft extract).2.isSome := by
  unfold read_document_file
  cases extract <;> by_cases h1 : ft = DOCX_MIME <;>
    by_cases h2 : ft = PDF_MIME <;> simp [h1, h2]

/-- C5 counterexample: the whitespace token " " is not emitted verbatim by the
preview renderer; it is wrapped in the styled span markup (the claim states
whitespace tokens are not wrapped in any styled markup). -/
theorem preview_whitespace_wrapped_cex :
    process_text_for_preview [' '] = [([], [' '])] ∧
    previewSpan defaultSettings ([], [' ']) ≠ [' '] ∧
    (previewSpan defaultSettings ([], [' '])).take 12 = "<span style=".toList := by
  decide

/-- C5 amended: every token of the preview, whitespace runs included, is
emitted as a styled span; a whitespace token is rendered inside the span with
an empty bold element followed by the whitespace verbatim, while word tokens
are rendered from their bold and normal parts. -/
theorem preview_token_markup (s : Settings) (t w : List Char)
    (hmem : w ∈ tokenize t) :
    (w.all isSpaceChar = true →
      ([], w) ∈ process_text_for_preview t ∧
      previewSpan s ([], w) =
        spanOpen s ++ "<b></b>".toList ++ w ++ "</span>".toList) ∧
    (w.all isSpaceChar = false →
      process_word_app w ∈ process_text_for_preview t) := by
  constructor
  · intro hws
    have htrim : trimEnds isSpaceChar w = [] :=
      (trimEnds_eq_nil_iff isSpaceChar w).mpr hws
    constructor
    · unfold process_text_for_preview
      exact List.mem_map.mpr ⟨w, hmem, by simp [htrim]⟩
    · have hb : ("<b>".toList ++ "</b>".toList : List Char) = "<b></b>".toList := by
        decide
      simp only [previewSpan, List.append_nil, ← hb, List.append_assoc]
  · intro hws
    have htrim : trimEnds isSpaceChar w ≠ [] := by
      intro hc
      have hall := (trimEnds_eq_nil_iff isSpaceChar w).mp hc
      rw [hall] at hws
      simp at hws
    unfold process_text_for_preview
    exact List.mem_map.mpr ⟨w, hmem, by rw [if_neg htrim]⟩

/-- Witness for C5's amended theorem: in the text "a ", the whitespace token
" " appears in the processed preview list with an empty bold part. -/
theorem preview_token_markup_witness :
    ([], [' ']) ∈ process_text_for_preview ['a', ' '] :=
  ((preview_token_markup defaultSettings ['a', ' '] [' '] (by decide)).1
    (by decide)).1

/-- C6: the background rectangle drawn by `add_background` is the frame
rectangle (468 x 648 for letter with reportlab's default one-inch margins),
not the full 612 x 792 page: the page point (600, 700) lies on the page but
outside the filled rectangle. -/
theorem add_background_not_full_page :
    add_background_rect simpleDocTemplate_letter = ⟨0, 0, 468, 648⟩ ∧
    ¬ rectCovers (add_background_rect simpleDocTemplate_letter) 600 700 ∧
    600 ≤ simpleDocTemplate_letter.pageW ∧
    700 ≤ simpleDocTemplate_letter.pageH := by
  decide

/-- C7: the paragraph segmenter splits on the literal double newline keeping
empty paragraphs ("A\n\nB" gives 2 paragraphs, "A\n\n\n\nB" gives 3, the
middle one empty), and every segmented paragraph — the empty one included,
whose markup is empty — contributes a Paragraph flowable to the PDF story. -/
theorem segment_preserves_empty_paragraphs (s : Settings) (text p : List Char)
    (hp : p ∈ splitOnDNL text) :
    (splitOnDNL "A\n\nB".toList).length = 2 ∧
    splitOnDNL "A\n\n\n\nB".toList = ["A".toList, [], "B".toList] ∧
    pdfParagraphMarkup s [] = [] ∧
    Flowable.par (pdfParagraphMarkup s p) ∈ create_pdf_content s text := by
  refine ⟨by decide, by decide, rfl, ?_⟩
  unfold create_pdf_content
  exact List.mem_flatMap.mpr ⟨p, hp, by simp⟩

/-- Witness for C7: the empty middle paragraph of "A\n\n\n\nB" produces an
(empty) Paragraph flowable in the story. -/
theorem segment_preserves_empty_paragraphs_witness :
    Flowable.par (pdfParagraphMarkup defaultSettings []) ∈
      create_pdf_content defaultSettings "A\n\n\n\nB".toList :=
  (segment_preserves_empty_paragraphs defaultSettings "A\n\n\n\nB".toList []
    (by decide)).2.2.2

/-- C8: a declared type that is neither the DOCX nor the PDF MIME type yields
no text and the unsupported-file-type error, and the upload handler stores no
PDF and surfaces that error. -/
theorem unsupported_type_no_text_no_pdf (ft : String)
    (extract : Except String (List Char)) (s : Settings)
    (build : List Flowable → Except String PdfBytes) (prev : Option PdfBytes)
    (h1 : ft ≠ DOCX_MIME) (h2 : ft ≠ PDF_MIME) :
    (read_document_file ft extract).1 = none ∧
    (read_document_file ft extract).2 =
      some "Unsupported file type. Please upload DOCX or PDF." ∧
    (handle_upload s ft extract build prev).pdf_bytes = none ∧
    (handle_upload s ft extract build prev).error_message =
      some "Unsupported file type. Please upload DOCX or PDF." := by
  have hr : read_document_file ft extract =
      (none, some "Unsupported file type. Please upload DOCX or PDF.") := by
    unfold read_document_file
    rw [if_neg h1, if_neg h2]
  refine ⟨by rw [hr], by rw [hr], ?_, ?_⟩ <;> simp [handle_upload, hr]

/-- Witness for C8 at the declared type "text/plain". -/
theorem unsupported_type_no_text_no_pdf_witness :
    (read_document_file "text/plain" (Except.error "boom")).1 = none :=
  (unsupported_type_no_text_no_pdf "text/plain" (Except.error "boom")
    defaultSettings noBuild none (by decide) (by decide)).1

/-- C9: when extraction reports an error or the extracted text is empty or
all-whitespace, the handler stores no PDF (clearing any previous one), stores
an error message, emits no preview, and its result does not depend on the PDF
build step at all — rendering is never attempted. -/
theorem extract_or_empty_aborts_pipeline (s : Settings) (ft : String)
    (extract : Except String (List Char))
    (build1 build2 : List Flowable → Except String PdfBytes)
    (prev : Option PdfBytes)
    (h : (read_document_file ft extract).2.isSome = true ∨
      ∃ t, (read_document_file ft extract).1 = some t ∧
        trimEnds isSpaceChar t = []) :
    (handle_upload s ft extract build1 prev).pdf_bytes = none ∧
    (handle_upload s ft extract build1 prev).error_message.isSome = true ∧
    (handle_upload s ft extract build1 prev).emitted_preview = none ∧
    handle_upload s ft extract build1 prev =
      handle_upload s ft extract build2 prev := by
  rcases hr : read_document_file ft extract with ⟨txt, err⟩
  cases err with
  | some e => simp [handle_upload, hr]
  | none =>
    cases txt with
    | none =>
      exfalso
      rcases h with h | ⟨t, ht, _⟩
      · rw [hr] at h
        simp at h
      · rw [hr] at ht
        simp at ht
    | some t =>
      have htrim : trimEnds isSpaceChar t = [] := by
        rcases h with h | ⟨t2, ht2, htr⟩
        · rw [hr] at h
          simp at h
        · rw [hr] at ht2
          simp at ht2
          rw [ht2]
          exact htr
      simp [handle_upload, hr, htrim]

/-- Witness for C9 at a rejected upload ("text/x" with a failing extractor). -/
theorem extract_or_empty_aborts_pipeline_witness :
    (handle_upload defaultSettings "text/x" (Except.error "boom")
      noBuild none).pdf_bytes = none :=
  (extract_or_empty_aborts_pipeline defaultSettings "text/x"
    (Except.error "boom") noBuild noBuild none (Or.inl (by decide))).1
